import Mathlib

/-!
# esp32-moonshiner: command dispatcher and temperature sampling loop

A shallow embedding of `src/jsonClient.c` (the inbound dispatcher
`handleClientMessage` with `sendAckToClient`) and of `src/temperatureChecker.c`
(the shared reading store `setTemperature` / `getTemperatures` and the task
`checkingTemperaturesTask`), followed by the properties proved about them.

Conventions of the embedding.

* A C function that can dereference a null pointer or index an array outside
  its bounds returns `Except Fault _`; `Except.error` marks the point where the
  C program leaves defined behaviour.
* Calls to external collaborators (mode changer, parameter store, queue send,
  `setTemperature`, `vTaskDelay`) are appended to a call log, so that
  "exactly once" and "in order" are statements about that log.
* `esp_err_t` and `int` values are `Int`, `uint32_t` values are `Nat` reduced
  modulo `2 ^ 32` at each conversion.
-/

namespace Moonshiner

/-! ## Faults -/

/-- The ways in which the embedded C code can leave defined behaviour. -/
inductive Fault where
  /-- `cJSON_GetObjectItem(root, name)->valueint` with no member `name`. -/
  | nullDeref (member : String)
  /-- An access to `array[index]` with `index` not below the array's size. -/
  | outOfBounds (array : String) (index : Nat)
  deriving DecidableEq, Repr

/-! ## cJSON (the part of the library the dispatcher uses) -/

/-- A numeric member of a cJSON object: its name (`string`), the number it
carries (`valuedouble`; only integer-valued numbers occur here) and the `int`
view of that number (`valueint`). -/
structure cJSON_Item where
  name : String
  valueint : Int
  valuedouble : Int
  deriving DecidableEq, Repr

/-- A cJSON object: its members in order. -/
abbrev cJSON := List cJSON_Item

def INT_MAX : Int := 2147483647

def INT_MIN : Int := -2147483648

/-- ASCII lower-casing of a member name, as `tolower` does per character. -/
def lowerName (s : String) : List Char := s.data.map Char.toLower

/-- Embedding of `cJSON_GetObjectItem`: the first member whose name matches,
compared without regard to case; `none` is the null pointer. -/
def cJSON_GetObjectItem (object : cJSON) (name : String) : Option cJSON_Item :=
  object.find? (fun it => decide (lowerName it.name = lowerName name))

def cJSON_CreateObject : cJSON := []

/-- Embedding of `cJSON_CreateNumber`: `valuedouble` is the number, `valueint`
saturates at the bounds of `int`. -/
def cJSON_CreateNumber (name : String) (num : Int) : cJSON_Item :=
  { name := name
    valuedouble := num
    valueint := if num ≥ INT_MAX then INT_MAX else if num ≤ INT_MIN then INT_MIN else num }

/-- Embedding of `cJSON_AddNumberToObject`: appends a number member. -/
def cJSON_AddNumberToObject (object : cJSON) (name : String) (num : Int) : cJSON :=
  object ++ [cJSON_CreateNumber name num]

/-! ## FreeRTOS queues -/

/-- A bounded FIFO queue. -/
structure Queue (α : Type) where
  items : List α
  capacity : Nat
  deriving Repr

/-- Embedding of `xQueueReceive`: the oldest item if one is there (or arrives
within the timeout), otherwise `none` (the call returned `pdFALSE`). -/
def xQueueReceive {α : Type} (q : Queue α) : Option (α × Queue α) :=
  match q.items with
  | [] => none
  | x :: rest => some (x, { q with items := rest })

/-- Embedding of `xQueueSend` with a zero timeout: the item is appended when
the queue has room (`pdTRUE`), and dropped otherwise (`errQUEUE_FULL`). -/
def xQueueSend {α : Type} (q : Queue α) (x : α) : Bool × Queue α :=
  if q.items.length < q.capacity then (true, { q with items := q.items ++ [x] })
  else (false, q)

/-! ## Constants and collaborators of the dispatcher -/

def ESP_OK : Int := 0

def ESP_FAIL : Int := -1

/-- Modelled from the spec: the enum `MessageType` is declared in
`jsonClient.h`, which is not among the sources; the boundary message table
gives `type=0` for a ChangeMode request. -/
def MessageTypeChangeMode : Int := 0

/-- Modelled from the spec: `jsonClient.h` is not among the sources; the
boundary message table gives `type=1` for a GetParameter request. -/
def MessageTypeGetPreParameter : Int := 1

/-- Modelled from the spec: `jsonClient.h` is not among the sources; the
boundary message table gives `type=2` for a SetParameter request. -/
def MessageTypeSetPreParameter : Int := 2

/-- Conversion of an `int` to `uint32_t`. -/
def toUInt32 (z : Int) : Nat := (z % 4294967296).toNat

/-- The external collaborators of the dispatcher, acting on a state `σ` of
their own: the mode changer passed as the function pointer
`changeWorkingMode`, and the parameter store of `paramsStorage.h`
(`getPreParameter` returns the value and the error code it writes through
`&err`; `setPreParameter` yields the error code it writes through `&err`). -/
structure Collaborators (σ : Type) where
  changeWorkingMode : Int → σ → Bool × σ
  getPreParameter : Int → σ → (Nat × Int) × σ
  setPreParameter : Int → Nat → σ → Int × σ

/-- One entry of the call log. -/
inductive Call where
  | changeWorkingMode (mode : Int)
  | getPreParameter (parameter : Int)
  | setPreParameter (parameter : Int) (value : Nat)
  | xQueueSend (message : cJSON)
  deriving DecidableEq, Repr

/-- The state the dispatcher runs in. -/
structure World (σ : Type) where
  ext : σ
  Json_incoming_queue : Queue cJSON
  Json_outgoing_queue : Queue cJSON
  calls : List Call

/-- The send to `Json_outgoing_queue`, logged. -/
def sendToClient {σ : Type} (root : cJSON) (w : World σ) : World σ :=
  { w with
    Json_outgoing_queue := (xQueueSend w.Json_outgoing_queue root).2
    calls := w.calls ++ [Call.xQueueSend root] }

/-- Embedding of `sendAckToClient` (jsonClient.c:50-55). -/
def sendAckToClient {σ : Type} (err : Int) (w : World σ) : World σ :=
  let root := cJSON_CreateObject
  let root := cJSON_AddNumberToObject root "error" err
  sendToClient root w

/-- Embedding of `cJSON_GetObjectItem(root, name)->valueint`. -/
def memberValueint (root : cJSON) (name : String) : Except Fault Int :=
  match cJSON_GetObjectItem root name with
  | none => .error (Fault.nullDeref name)
  | some item => .ok item.valueint

/-- Embedding of `handleClientMessage` (jsonClient.c:57-83). -/
def handleClientMessage {σ : Type} (env : Collaborators σ) (w : World σ) :
    Except Fault (World σ) :=
  match xQueueReceive w.Json_incoming_queue with
  | none => .ok w
  | some (root, incoming) =>
    let w := { w with Json_incoming_queue := incoming }
    match memberValueint root "type" with
    | .error f => .error f
    | .ok message_type =>
      if message_type = MessageTypeChangeMode then
        match memberValueint root "mode" with
        | .error f => .error f
        | .ok mode =>
          let (changed, ext) := env.changeWorkingMode mode w.ext
          let w := { w with ext := ext, calls := w.calls ++ [Call.changeWorkingMode mode] }
          if changed then .ok (sendAckToClient ESP_OK w)
          else .ok (sendAckToClient ESP_FAIL w)
      else if message_type = MessageTypeGetPreParameter then
        match memberValueint root "parameter" with
        | .error f => .error f
        | .ok parameter =>
          let ((value, _err), ext) := env.getPreParameter parameter w.ext
          let w := { w with ext := ext, calls := w.calls ++ [Call.getPreParameter parameter] }
          let root := cJSON_CreateObject
          let root := cJSON_AddNumberToObject root "value" (value : Int)
          .ok (sendToClient root w)
      else if message_type = MessageTypeSetPreParameter then
        match memberValueint root "parameter" with
        | .error f => .error f
        | .ok parameter =>
          match memberValueint root "value" with
          | .error f => .error f
          | .ok valueint =>
            let value := toUInt32 valueint
            let (err, ext) := env.setPreParameter parameter value w.ext
            let w := { w with ext := ext,
                              calls := w.calls ++ [Call.setPreParameter parameter value] }
            .ok (sendAckToClient err w)
      else .ok w

/-! ### Concrete collaborators used to evaluate the dispatcher -/

/-- A parameter store over an association list: the getter returns the last
value its setter accepted for the parameter (0 if none), both with `ESP_OK`. -/
def lastValueGet (parameter : Int) (st : List (Int × Nat)) : (Nat × Int) × List (Int × Nat) :=
  (((st.lookup parameter).getD 0, ESP_OK), st)

def lastValueSet (parameter : Int) (value : Nat) (st : List (Int × Nat)) :
    Int × List (Int × Nat) :=
  (ESP_OK, (parameter, value) :: st)

/-- Collaborators over the last-value store, with a mode changer that accepts
exactly the non-negative modes. -/
def lastValueStore : Collaborators (List (Int × Nat)) where
  changeWorkingMode := fun mode st => (decide (0 ≤ mode), st)
  getPreParameter := lastValueGet
  setPreParameter := lastValueSet

/-- A parameter store whose setter rejects every write with error code 3. -/
def rejectingStore : Collaborators Unit where
  changeWorkingMode := fun _ st => (false, st)
  getPreParameter := fun _ st => ((7, ESP_FAIL), st)
  setPreParameter := fun _ _ st => (3, st)

/-- A number member as a JSON parser produces it for the integer `n`. -/
def num (name : String) (n : Int) : cJSON_Item := cJSON_CreateNumber name n

/-- A world with the given inbound messages, an empty outbound queue of the
given capacity and an empty call log. -/
def worldOf {σ : Type} (ext : σ) (inbound : List cJSON) (capacity : Nat) : World σ :=
  { ext := ext
    Json_incoming_queue := { items := inbound, capacity := 10 }
    Json_outgoing_queue := { items := [], capacity := capacity }
    calls := [] }

/-- A ChangeMode request: members `type = 0` and `mode`. -/
def changeModeRequest (mode : Int) : cJSON := [num "type" 0, num "mode" mode]

/-- A GetParameter request: members `type = 1` and `parameter`. -/
def getParameterRequest (parameter : Int) : cJSON := [num "type" 1, num "parameter" parameter]

/-- A SetParameter request: members `type = 2`, `parameter` and `value`. -/
def setParameterRequest (parameter value : Int) : cJSON :=
  [num "type" 2, num "parameter" parameter, num "value" value]

/-! ## The shared reading store (temperatureChecker.c:39-71) -/

/-- A `float`, as its IEEE-754 single-precision bit pattern. The code only
copies readings and compares them with `DS18B20_INVALID_READING`, a number
with a single bit pattern, so `==` on these floats is equality of patterns. -/
abbrev Reading := Nat

/-- The sentinel `DS18B20_INVALID_READING` of `ds18b20.h`, -2048.0f. -/
def DS18B20_INVALID_READING : Reading := 0xC5000000

/-- The struct `Temperature_info`, with the members temperatureChecker.c
accesses. -/
structure Temperature_info where
  temperatureFirst : Reading
  temperatureSecond : Reading
  temperatureThird : Reading
  deriving DecidableEq, Repr

/-- The statics of temperatureChecker.c: the store `temperatures` and the
handle `pwm_mutex` of `temperatureMutex` (`none` while it is `NULL`, otherwise
whether the mutex is held). -/
structure StoreState where
  temperatures : Temperature_info
  pwm_mutex : Option Bool
  deriving DecidableEq, Repr

/-- Embedding of `temperatureMutex` (temperatureChecker.c:41-48): creates the
mutex on first use. -/
def temperatureMutex (st : StoreState) : StoreState :=
  match st.pwm_mutex with
  | none => { st with pwm_mutex := some false }
  | some _ => st

/-- Embedding of `xSemaphoreTake(temperatureMutex(), portMAX_DELAY)`: the call
waits without a timeout, so it returns `pdTRUE` with the mutex held. -/
def xSemaphoreTake (st : StoreState) : Bool × StoreState :=
  (true, { temperatureMutex st with pwm_mutex := some true })

/-- Embedding of `xSemaphoreGive(temperatureMutex())`. -/
def xSemaphoreGive (st : StoreState) : StoreState :=
  { temperatureMutex st with pwm_mutex := some false }

/-- Embedding of `getTemperatures` (temperatureChecker.c:50-57); `result` is
the indeterminate initial content of the local of that name. -/
def getTemperatures (result : Temperature_info) (st : StoreState) :
    Temperature_info × StoreState :=
  let (taken, st) := xSemaphoreTake st
  if taken then
    let result := st.temperatures
    (result, xSemaphoreGive st)
  else (result, st)

/-- Embedding of `setTemperature` (temperatureChecker.c:59-71). -/
def setTemperature (device_index : Nat) (temperature : Reading) (st : StoreState) :
    Bool × StoreState :=
  let (taken, st) := xSemaphoreTake st
  let st :=
    if taken then
      let st :=
        if device_index = 0 then
          { st with temperatures := { st.temperatures with temperatureFirst := temperature } }
        else if device_index = 1 then
          { st with temperatures := { st.temperatures with temperatureSecond := temperature } }
        else if device_index = 2 then
          { st with temperatures := { st.temperatures with temperatureThird := temperature } }
        else st
      xSemaphoreGive st
    else st
  (true, st)

/-- The reading a store holds for a sensor slot: slot 0, 1, 2 are the members
written for `device_index` 0, 1, 2; the struct has no further slot. -/
def Temperature_info.slot (t : Temperature_info) : Nat → Option Reading
  | 0 => some t.temperatureFirst
  | 1 => some t.temperatureSecond
  | 2 => some t.temperatureThird
  | _ => none

/-- A store state for evaluation: readings 10, 20, 30 (as bit patterns) and a
mutex not yet created. -/
def sampleStore : StoreState :=
  { temperatures := { temperatureFirst := 10, temperatureSecond := 20, temperatureThird := 30 }
    pwm_mutex := none }

/-! ## The sampling task (temperatureChecker.c:73-170) -/

/-- Constants the task takes from headers that are not among the sources
(`config/config.h`, and `portTICK_PERIOD_MS` of FreeRTOS): parameters. -/
structure Config where
  DS18B20_DEVICES_QUANTITY : Nat
  DS18B20_RESOLUTION : Nat
  DS18B20_CHECK_PERIOD : Nat
  portTICK_PERIOD_MS : Nat
  deriving Repr

/-- The number of values of `TickType_t` (an unsigned 32-bit integer). -/
def TICKS : Nat := 4294967296

/-- Subtraction of `TickType_t` values. -/
def tickSub (a b : Nat) : Nat := (a % TICKS + TICKS - b % TICKS) % TICKS

/-- Embedding of `xTaskGetTickCount()`: the tick counter at the absolute tick
`now` since boot. -/
def xTaskGetTickCount (now : Nat) : Nat := now % TICKS

/-- The sampling period in ticks, `DS18B20_CHECK_PERIOD / portTICK_PERIOD_MS`. -/
def Config.period (cfg : Config) : Nat :=
  (cfg.DS18B20_CHECK_PERIOD / cfg.portTICK_PERIOD_MS) % TICKS

/-- A 64-bit 1-Wire ROM code. -/
abbrev OneWireBus_ROMCode := Nat

/-- The device record behind a `DS18B20_Info*`, as the task initialises it. -/
structure DS18B20_Info where
  solo : Bool
  rom_code : OneWireBus_ROMCode
  use_crc : Bool
  resolution : Nat
  deriving DecidableEq, Repr

/-- One entry of the task's call log. -/
inductive TaskCall where
  | setTemperature (device_index : Nat) (temperature : Reading)
  | vTaskDelay (ticks : Nat)
  deriving DecidableEq, Repr

/-- The state the task runs in: the reading store, the array `crc_errors`, the
absolute tick `now`, and the call log. -/
structure TaskState where
  store : StoreState
  crc_errors : List Int
  now : Nat
  calls : List TaskCall
  deriving DecidableEq, Repr

/-- The loop `for (int i = 0; i < n; ++i) body`. -/
def forLoop {α : Type} (n : Nat) (body : Nat → α → Except Fault α) (init : α) :
    Except Fault α :=
  (List.range n).foldlM (fun acc i => body i acc) init

/-- The discovery loop (temperatureChecker.c:94-101) over the ROM codes the
search is still to report: `found` is true exactly while that list is not
empty, and its head is `search_state.rom_code`. -/
def findDevicesLoop :
    List OneWireBus_ROMCode → List OneWireBus_ROMCode → Nat →
      Except Fault (List OneWireBus_ROMCode × Nat)
  | [], device_rom_codes, num_devices => .ok (device_rom_codes, num_devices)
  | rom_code :: remaining, device_rom_codes, num_devices =>
    if num_devices < device_rom_codes.length then
      findDevicesLoop remaining (device_rom_codes.set num_devices rom_code) (num_devices + 1)
    else .error (Fault.outOfBounds "device_rom_codes" num_devices)

/-- Discovery (temperatureChecker.c:89-101) on a bus whose search reports the
ROM codes `bus`: the filled array `device_rom_codes` and `num_devices`. -/
def findDevices (cfg : Config) (bus : List OneWireBus_ROMCode) :
    Except Fault (List OneWireBus_ROMCode × Nat) :=
  findDevicesLoop bus (List.replicate cfg.DS18B20_DEVICES_QUANTITY 0) 0

/-- Body of the device creation loop (temperatureChecker.c:121-131). -/
def initDevice (cfg : Config) (num_devices : Nat) (device_rom_codes : List OneWireBus_ROMCode)
    (i : Nat) (devices : List (Option DS18B20_Info)) :
    Except Fault (List (Option DS18B20_Info)) :=
  if i < devices.length then
    if num_devices = 1 then
      .ok (devices.set i (some
        { solo := true, rom_code := 0, use_crc := true, resolution := cfg.DS18B20_RESOLUTION }))
    else
      match device_rom_codes[i]? with
      | none => .error (Fault.outOfBounds "device_rom_codes" i)
      | some rom_code =>
        .ok (devices.set i (some
          { solo := false, rom_code := rom_code, use_crc := true,
            resolution := cfg.DS18B20_RESOLUTION }))
  else .error (Fault.outOfBounds "devices" i)

/-- The device creation loop (temperatureChecker.c:118-132). -/
def initDevices (cfg : Config) (num_devices : Nat) (device_rom_codes : List OneWireBus_ROMCode) :
    Except Fault (List (Option DS18B20_Info)) :=
  forLoop num_devices (initDevice cfg num_devices device_rom_codes)
    (List.replicate cfg.DS18B20_DEVICES_QUANTITY none)

/-- The read loop (temperatureChecker.c:148-151); `read` is what
`ds18b20_read_temp` returns for a device handle in this cycle. -/
def readTemps (cfg : Config) (read : Option DS18B20_Info → Reading)
    (devices : List (Option DS18B20_Info)) (num_devices : Nat) : Except Fault (List Reading) :=
  forLoop num_devices
    (fun i temps =>
      match devices[i]? with
      | none => .error (Fault.outOfBounds "devices" i)
      | some device =>
        if i < temps.length then .ok (temps.set i (read device))
        else .error (Fault.outOfBounds "temps" i))
    (List.replicate cfg.DS18B20_DEVICES_QUANTITY 0)

/-- Body of the publishing loop (temperatureChecker.c:155-158). -/
def publishTemp (temps : List Reading) (i : Nat) (s : TaskState) : Except Fault TaskState :=
  match temps[i]? with
  | none => .error (Fault.outOfBounds "temps" i)
  | some temperature =>
    let counted : Except Fault (List Int) :=
      if temperature = DS18B20_INVALID_READING then
        match s.crc_errors[i]? with
        | none => .error (Fault.outOfBounds "crc_errors" i)
        | some count => .ok (s.crc_errors.set i (count + 1))
      else .ok s.crc_errors
    match counted with
    | .error f => .error f
    | .ok crc_errors =>
      .ok { s with
            crc_errors := crc_errors
            store := (setTemperature i temperature s.store).2
            calls := s.calls ++ [TaskCall.setTemperature i temperature] }

/-- One sampling cycle up to the periodic delay (temperatureChecker.c:140-159):
read every device, then publish every reading; `busy` is the number of ticks
that pass meanwhile (`ds18b20_convert_all` and `ds18b20_wait_for_conversion`
act on the bus only). -/
def samplingCycle (cfg : Config) (read : Option DS18B20_Info → Reading)
    (devices : List (Option DS18B20_Info)) (num_devices : Nat) (busy : Nat) (s : TaskState) :
    Except Fault TaskState :=
  match readTemps cfg read devices num_devices with
  | .error f => .error f
  | .ok temps =>
    match forLoop num_devices (publishTemp temps) s with
    | .error f => .error f
    | .ok s => .ok { s with now := s.now + busy }

/-- Ticks that pass where the end of a cycle can be preempted: between the two
`xTaskGetTickCount()` calls of lines 162 and 163, between the second of them
and the moment `vTaskDelay` starts counting, and between the end of the delay
and the moment the task runs again. -/
structure Preemption where
  betweenReads : Nat
  beforeDelay : Nat
  wakeLatency : Nat
  deriving Repr

/-- Embedding of `vTaskDelay(ticks)`: the task runs again no earlier than
`ticks` ticks after the call. -/
def vTaskDelay (ticks : Nat) (wakeLatency : Nat) (s : TaskState) : TaskState :=
  { s with now := s.now + ticks + wakeLatency, calls := s.calls ++ [TaskCall.vTaskDelay ticks] }

/-- The periodic delay at the end of a cycle (temperatureChecker.c:161-164);
the state it returns is the one the next cycle starts in. -/
def periodicDelay (cfg : Config) (start_ticks : Nat) (pre : Preemption) (s : TaskState) :
    TaskState :=
  if tickSub (xTaskGetTickCount s.now) start_ticks < cfg.period then
    let s := { s with now := s.now + pre.betweenReads }
    let ticks := tickSub cfg.period (tickSub (xTaskGetTickCount s.now) start_ticks)
    vTaskDelay ticks pre.wakeLatency { s with now := s.now + pre.beforeDelay }
  else s

/-- What one cycle receives from outside: the readings of the driver and the
ticks that pass. -/
structure CycleInput where
  read : Option DS18B20_Info → Reading
  busy : Nat
  pre : Preemption

/-- One iteration of `while (1)` (temperatureChecker.c:137-165). -/
def cycle (cfg : Config) (devices : List (Option DS18B20_Info)) (num_devices : Nat)
    (input : CycleInput) (s : TaskState) : Except Fault TaskState :=
  let start_ticks := xTaskGetTickCount s.now
  match samplingCycle cfg input.read devices num_devices input.busy s with
  | .error f => .error f
  | .ok s => .ok (periodicDelay cfg start_ticks input.pre s)

/-- The first iterations of `while (1)`, one per input. -/
def runCycles (cfg : Config) (devices : List (Option DS18B20_Info)) (num_devices : Nat) :
    List CycleInput → TaskState → Except Fault TaskState
  | [], s => .ok s
  | input :: inputs, s =>
    match cycle cfg devices num_devices input s with
    | .error f => .error f
    | .ok s => runCycles cfg devices num_devices inputs s

/-- Embedding of `checkingTemperaturesTask` (temperatureChecker.c:73-170) on a
bus whose search reports the ROM codes `bus`, run for as many cycles as there
are inputs; with no device the task ends before the first cycle. -/
def checkingTemperaturesTask (cfg : Config) (bus : List OneWireBus_ROMCode)
    (inputs : List CycleInput) (s : TaskState) : Except Fault TaskState :=
  let s := vTaskDelay (2000 / cfg.portTICK_PERIOD_MS % TICKS) 0 s
  match findDevices cfg bus with
  | .error f => .error f
  | .ok (device_rom_codes, num_devices) =>
    match initDevices cfg num_devices device_rom_codes with
    | .error f => .error f
    | .ok devices =>
      let s := { s with crc_errors := List.replicate cfg.DS18B20_DEVICES_QUANTITY 0 }
      if num_devices > 0 then runCycles cfg devices num_devices inputs s
      else .ok s

/-- A configuration for evaluation: the given device limit, a period of 1000
ticks (1000 ms at 1 ms per tick). -/
def sampleConfig (limit : Nat) : Config :=
  { DS18B20_DEVICES_QUANTITY := limit
    DS18B20_RESOLUTION := 12
    DS18B20_CHECK_PERIOD := 1000
    portTICK_PERIOD_MS := 1 }

/-- A task state for evaluation: the sample store, counters at zero, the given
absolute tick, an empty call log. -/
def sampleTask (limit : Nat) (now : Nat) : TaskState :=
  { store := sampleStore, crc_errors := List.replicate limit 0, now := now, calls := [] }

/-- The reading `ds18b20_read_temp(devices[i])` of this cycle. -/
def readingOf (read : Option DS18B20_Info → Reading) (devices : List (Option DS18B20_Info))
    (i : Nat) : Reading :=
  read (devices.getD i none)

/-- Device handles for evaluation, one per ROM code. -/
def sampleDevices (codes : List OneWireBus_ROMCode) : List (Option DS18B20_Info) :=
  codes.map (fun c => some { solo := false, rom_code := c, use_crc := true, resolution := 12 })

/-- A driver for evaluation: the device with ROM code 22 fails its check and
yields the sentinel, every other device yields its ROM code as the reading. -/
def sampleRead : Option DS18B20_Info → Reading
  | some device => if device.rom_code = 22 then DS18B20_INVALID_READING else device.rom_code
  | none => 0

/-! ## The dispatcher: properties -/

theorem memberValueint_of_get {root : cJSON} {name : String} {item : cJSON_Item}
    (h : cJSON_GetObjectItem root name = some item) :
    memberValueint root name = .ok item.valueint := by
  simp [memberValueint, h]

theorem xQueueReceive_cons {α : Type} (q : Queue α) (x : α) (rest : List α)
    (h : q.items = x :: rest) :
    xQueueReceive q = some (x, { q with items := rest }) := by
  simp [xQueueReceive, h]

/-- C1. A received message with `type = 0` and `mode = m`: the mode changer is
called once with `m`, then one acknowledgement is sent whose `error` member is
`ESP_OK = 0` when the changer returned true and `ESP_FAIL` otherwise; the
parameter store is not called (the call log grows by exactly these two
entries), and the acknowledgement is what the outbound queue is offered. -/
theorem handleClientMessage_changeMode {σ : Type} (env : Collaborators σ) (w : World σ)
    (root : cJSON) (rest : List cJSON) (t mi : cJSON_Item) (m : Int)
    (hq : w.Json_incoming_queue.items = root :: rest)
    (ht : cJSON_GetObjectItem root "type" = some t) (ht0 : t.valueint = 0)
    (hm : cJSON_GetObjectItem root "mode" = some mi) (hmv : mi.valueint = m) :
    ∃ w' ack code,
      handleClientMessage env w = .ok w' ∧
      code = (if (env.changeWorkingMode m w.ext).1 then ESP_OK else ESP_FAIL) ∧
      ESP_OK = 0 ∧
      ack = [cJSON_CreateNumber "error" code] ∧
      (cJSON_GetObjectItem ack "error").map (fun it => it.valuedouble) = some code ∧
      w'.calls = w.calls ++ [Call.changeWorkingMode m, Call.xQueueSend ack] ∧
      w'.ext = (env.changeWorkingMode m w.ext).2 ∧
      w'.Json_outgoing_queue = (xQueueSend w.Json_outgoing_queue ack).2 ∧
      w'.Json_incoming_queue.items = rest := by
  subst hmv
  cases hc : env.changeWorkingMode mi.valueint w.ext with
  | mk changed ext =>
    cases changed <;>
      simp [handleClientMessage, xQueueReceive_cons _ _ _ hq, memberValueint_of_get ht,
        memberValueint_of_get hm, ht0, hc, MessageTypeChangeMode, sendAckToClient, sendToClient,
        cJSON_AddNumberToObject, cJSON_CreateObject, cJSON_GetObjectItem, cJSON_CreateNumber,
        ESP_OK]

/-- Witness for C1: the request with `type = 0`, `mode = 2` over a mode changer
that accepts mode 2. -/
theorem handleClientMessage_changeMode_witness :
    ∃ w' ack code,
      handleClientMessage lastValueStore (worldOf [] [changeModeRequest 2] 4) = .ok w' ∧
      code = (if (lastValueStore.changeWorkingMode 2 []).1 then ESP_OK else ESP_FAIL) ∧
      ESP_OK = 0 ∧
      ack = [cJSON_CreateNumber "error" code] ∧
      (cJSON_GetObjectItem ack "error").map (fun it => it.valuedouble) = some code ∧
      w'.calls = [] ++ [Call.changeWorkingMode 2, Call.xQueueSend ack] ∧
      w'.ext = (lastValueStore.changeWorkingMode 2 []).2 ∧
      w'.Json_outgoing_queue = (xQueueSend ⟨[], 4⟩ ack).2 ∧
      w'.Json_incoming_queue.items = [] :=
  handleClientMessage_changeMode lastValueStore (worldOf [] [changeModeRequest 2] 4)
    (changeModeRequest 2) [] (num "type" 0) (num "mode" 2) 2 rfl (by decide) (by decide)
    (by decide) (by decide)

/-- C3. A received message with `type = 1` and `parameter = p`: the getter is
called once with `p`, then one message is sent, a value response whose `value`
member is the value the getter returned, whatever the error code it returned;
no acknowledgement is sent (the call log grows by exactly these two entries). -/
theorem handleClientMessage_getParameter {σ : Type} (env : Collaborators σ) (w : World σ)
    (root : cJSON) (rest : List cJSON) (t pi : cJSON_Item) (p : Int)
    (hq : w.Json_incoming_queue.items = root :: rest)
    (ht : cJSON_GetObjectItem root "type" = some t) (ht1 : t.valueint = 1)
    (hp : cJSON_GetObjectItem root "parameter" = some pi) (hpv : pi.valueint = p) :
    ∃ w' response value,
      handleClientMessage env w = .ok w' ∧
      value = (env.getPreParameter p w.ext).1.1 ∧
      response = [cJSON_CreateNumber "value" (value : Int)] ∧
      (cJSON_GetObjectItem response "value").map (fun it => it.valuedouble)
        = some (value : Int) ∧
      cJSON_GetObjectItem response "error" = none ∧
      w'.calls = w.calls ++ [Call.getPreParameter p, Call.xQueueSend response] ∧
      w'.ext = (env.getPreParameter p w.ext).2 ∧
      w'.Json_outgoing_queue = (xQueueSend w.Json_outgoing_queue response).2 ∧
      w'.Json_incoming_queue.items = rest := by
  subst hpv
  rcases hc : env.getPreParameter pi.valueint w.ext with ⟨⟨value, err⟩, ext⟩
  have hne : ¬ lowerName "value" = lowerName "error" := by decide
  simp [handleClientMessage, xQueueReceive_cons _ _ _ hq, memberValueint_of_get ht,
    memberValueint_of_get hp, ht1, hc, MessageTypeChangeMode,
    MessageTypeGetPreParameter, sendToClient,
    cJSON_AddNumberToObject, cJSON_CreateObject, cJSON_GetObjectItem, cJSON_CreateNumber, hne]

/-- Witness for C3: parameter 5 over a getter that returns value 7 together
with the failure code; the value response still carries 7. -/
theorem handleClientMessage_getParameter_witness :
    ∃ w' response value,
      handleClientMessage rejectingStore (worldOf () [getParameterRequest 5] 4) = .ok w' ∧
      value = (rejectingStore.getPreParameter 5 ()).1.1 ∧
      response = [cJSON_CreateNumber "value" (value : Int)] ∧
      (cJSON_GetObjectItem response "value").map (fun it => it.valuedouble)
        = some (value : Int) ∧
      cJSON_GetObjectItem response "error" = none ∧
      w'.calls = [] ++ [Call.getPreParameter 5, Call.xQueueSend response] ∧
      w'.ext = (rejectingStore.getPreParameter 5 ()).2 ∧
      w'.Json_outgoing_queue = (xQueueSend ⟨[], 4⟩ response).2 ∧
      w'.Json_incoming_queue.items = [] :=
  handleClientMessage_getParameter rejectingStore (worldOf () [getParameterRequest 5] 4)
    (getParameterRequest 5) [] (num "type" 1) (num "parameter" 5) 5
    rfl (by decide) (by decide) (by decide) (by decide)

/-- No message within the poll timeout: the handler returns with the world
unchanged (nothing sent, no collaborator called). -/
theorem handleClientMessage_timeout {σ : Type} (env : Collaborators σ) (w : World σ)
    (hq : w.Json_incoming_queue.items = []) :
    handleClientMessage env w = .ok w := by
  simp [handleClientMessage, xQueueReceive, hq]

/-- A received message whose `type` member holds an integer other than 0, 1
and 2: the handler returns normally, only the inbound queue has advanced
(nothing sent, no collaborator called). -/
theorem handleClientMessage_unknown_type {σ : Type} (env : Collaborators σ) (w : World σ)
    (root : cJSON) (rest : List cJSON) (t : cJSON_Item)
    (hq : w.Json_incoming_queue.items = root :: rest)
    (ht : cJSON_GetObjectItem root "type" = some t)
    (h0 : t.valueint ≠ 0) (h1 : t.valueint ≠ 1) (h2 : t.valueint ≠ 2) :
    handleClientMessage env w
      = .ok { w with Json_incoming_queue := { w.Json_incoming_queue with items := rest } } := by
  simp [handleClientMessage, xQueueReceive_cons _ _ _ hq, memberValueint_of_get ht, h0, h1, h2,
    MessageTypeChangeMode, MessageTypeGetPreParameter, MessageTypeSetPreParameter]

/-- C4 (the code at the failing input). A received message with no `type`
member: `cJSON_GetObjectItem(root, "type")` is the null pointer and the handler
dereferences it, so it does not complete normally. -/
theorem handleClientMessage_missing_type {σ : Type} (env : Collaborators σ) (w : World σ)
    (root : cJSON) (rest : List cJSON)
    (hq : w.Json_incoming_queue.items = root :: rest)
    (ht : cJSON_GetObjectItem root "type" = none) :
    handleClientMessage env w = .error (Fault.nullDeref "type") := by
  simp [handleClientMessage, xQueueReceive_cons _ _ _ hq, memberValueint, ht]

/-- Witness for C4: the empty object as the received message. -/
theorem handleClientMessage_missing_type_witness :
    (worldOf [] [cJSON_CreateObject] 4 : World (List (Int × Nat))).Json_incoming_queue.items
        = cJSON_CreateObject :: [] ∧
      cJSON_GetObjectItem cJSON_CreateObject "type" = none ∧
      handleClientMessage lastValueStore (worldOf [] [cJSON_CreateObject] 4)
        = .error (Fault.nullDeref "type") :=
  ⟨rfl, rfl,
    handleClientMessage_missing_type lastValueStore (worldOf [] [cJSON_CreateObject] 4)
      cJSON_CreateObject [] rfl rfl⟩

/-- C5 (counterexample). Over the last-value store (its setter accepts the
write with `ESP_OK`, its getter returns the accepted value with `ESP_OK`),
SetParameter(5, -1) followed by GetParameter(5): the setter receives
4294967295, the acknowledgement is OK, and the value response carries
4294967295, not -1. -/
theorem setThenGet_negative_value :
    lastValueStore.setPreParameter 5 4294967295 [] = (ESP_OK, [(5, 4294967295)]) ∧
    lastValueStore.getPreParameter 5 [(5, 4294967295)]
      = ((4294967295, ESP_OK), [(5, 4294967295)]) ∧
    ∃ w1 w2,
      handleClientMessage lastValueStore
        (worldOf [] [setParameterRequest 5 (-1), getParameterRequest 5] 4) = .ok w1 ∧
      handleClientMessage lastValueStore w1 = .ok w2 ∧
      w2.calls = [Call.setPreParameter 5 4294967295,
                  Call.xQueueSend [cJSON_CreateNumber "error" ESP_OK],
                  Call.getPreParameter 5,
                  Call.xQueueSend [cJSON_CreateNumber "value" 4294967295]] ∧
      (cJSON_CreateNumber "value" 4294967295).valuedouble ≠ -1 ∧
      (cJSON_CreateNumber "value" 4294967295).valueint ≠ -1 :=
  ⟨by decide, by decide, _, _, rfl, rfl, rfl, by decide, by decide⟩

/-- The world a SetParameter request leaves behind, in closed form. -/
theorem handleClientMessage_set_eq {σ : Type} (env : Collaborators σ) (w : World σ)
    (root : cJSON) (rest : List cJSON) (t pi vi : cJSON_Item)
    (hq : w.Json_incoming_queue.items = root :: rest)
    (ht : cJSON_GetObjectItem root "type" = some t) (ht2 : t.valueint = 2)
    (hp : cJSON_GetObjectItem root "parameter" = some pi)
    (hv : cJSON_GetObjectItem root "value" = some vi) :
    handleClientMessage env w = .ok
      { ext := (env.setPreParameter pi.valueint (toUInt32 vi.valueint) w.ext).2
        Json_incoming_queue := { w.Json_incoming_queue with items := rest }
        Json_outgoing_queue := (xQueueSend w.Json_outgoing_queue
          [cJSON_CreateNumber "error"
            (env.setPreParameter pi.valueint (toUInt32 vi.valueint) w.ext).1]).2
        calls := w.calls ++
          [Call.setPreParameter pi.valueint (toUInt32 vi.valueint),
           Call.xQueueSend [cJSON_CreateNumber "error"
            (env.setPreParameter pi.valueint (toUInt32 vi.valueint) w.ext).1]] } := by
  cases hc : env.setPreParameter pi.valueint (toUInt32 vi.valueint) w.ext with
  | mk err ext =>
    simp [handleClientMessage, xQueueReceive_cons _ _ _ hq, memberValueint_of_get ht,
      memberValueint_of_get hp, memberValueint_of_get hv, ht2, hc, MessageTypeChangeMode,
      MessageTypeGetPreParameter, MessageTypeSetPreParameter, sendAckToClient, sendToClient,
      cJSON_AddNumberToObject, cJSON_CreateObject]

/-- The world a GetParameter request leaves behind, in closed form. -/
theorem handleClientMessage_get_eq {σ : Type} (env : Collaborators σ) (w : World σ)
    (root : cJSON) (rest : List cJSON) (t pi : cJSON_Item)
    (hq : w.Json_incoming_queue.items = root :: rest)
    (ht : cJSON_GetObjectItem root "type" = some t) (ht1 : t.valueint = 1)
    (hp : cJSON_GetObjectItem root "parameter" = some pi) :
    handleClientMessage env w = .ok
      { ext := (env.getPreParameter pi.valueint w.ext).2
        Json_incoming_queue := { w.Json_incoming_queue with items := rest }
        Json_outgoing_queue := (xQueueSend w.Json_outgoing_queue
          [cJSON_CreateNumber "value" ((env.getPreParameter pi.valueint w.ext).1.1 : Int)]).2
        calls := w.calls ++
          [Call.getPreParameter pi.valueint,
           Call.xQueueSend
            [cJSON_CreateNumber "value" ((env.getPreParameter pi.valueint w.ext).1.1 : Int)]] } := by
  rcases hc : env.getPreParameter pi.valueint w.ext with ⟨⟨value, err⟩, ext⟩
  simp [handleClientMessage, xQueueReceive_cons _ _ _ hq, memberValueint_of_get ht,
    memberValueint_of_get hp, ht1, hc, MessageTypeChangeMode,
    MessageTypeGetPreParameter, sendToClient, cJSON_AddNumberToObject, cJSON_CreateObject]

/-- C5 (amended). For a `value` member holding `v` with `0 ≤ v ≤ INT_MAX`, over
a store whose setter accepts the write with `ESP_OK` and whose getter then
returns the accepted value with `ESP_OK`: handling SetParameter(p, v) and then
GetParameter(p) sends an acknowledgement with `error = ESP_OK` followed by a
value response whose `value` member equals `v`, and nothing else. -/
theorem setThenGet_roundtrip {σ : Type} (env : Collaborators σ) (w : World σ)
    (setRoot getRoot : cJSON) (rest : List cJSON) (t1 p1 v1 t2 p2 : cJSON_Item)
    (p v : Int) (ext1 ext2 : σ)
    (hq : w.Json_incoming_queue.items = setRoot :: getRoot :: rest)
    (ht1 : cJSON_GetObjectItem setRoot "type" = some t1) (ht1v : t1.valueint = 2)
    (hp1 : cJSON_GetObjectItem setRoot "parameter" = some p1) (hp1v : p1.valueint = p)
    (hv1 : cJSON_GetObjectItem setRoot "value" = some v1) (hv1v : v1.valueint = v)
    (ht2 : cJSON_GetObjectItem getRoot "type" = some t2) (ht2v : t2.valueint = 1)
    (hp2 : cJSON_GetObjectItem getRoot "parameter" = some p2) (hp2v : p2.valueint = p)
    (hlo : 0 ≤ v) (hhi : v ≤ INT_MAX)
    (hset : env.setPreParameter p (toUInt32 v) w.ext = (ESP_OK, ext1))
    (hget : env.getPreParameter p ext1 = ((toUInt32 v, ESP_OK), ext2)) :
    ∃ w1 w2 response,
      handleClientMessage env w = .ok w1 ∧
      handleClientMessage env w1 = .ok w2 ∧
      response = [cJSON_CreateNumber "value" v] ∧
      (cJSON_GetObjectItem response "value").map (fun it => it.valuedouble) = some v ∧
      w2.calls = w.calls ++
        [Call.setPreParameter p (toUInt32 v),
         Call.xQueueSend [cJSON_CreateNumber "error" ESP_OK],
         Call.getPreParameter p,
         Call.xQueueSend response] ∧
      w2.Json_incoming_queue.items = rest := by
  have hcast : (toUInt32 v : Int) = v := by
    unfold toUInt32 INT_MAX at *
    omega
  subst hp1v hv1v
  refine ⟨_, _, _, handleClientMessage_set_eq env w setRoot (getRoot :: rest) t1 p1 v1 hq ht1
    ht1v hp1 hv1, handleClientMessage_get_eq env _ getRoot rest t2 p2 rfl ht2 ht2v hp2, rfl, ?_,
    ?_, rfl⟩
  · simp [cJSON_GetObjectItem, cJSON_CreateNumber]
  · simp [hp2v, hset, hget, hcast]

/-- Witness for C5 (amended): SetParameter(5, 100) then GetParameter(5) over the
last-value store. -/
theorem setThenGet_roundtrip_witness :
    ∃ w1 w2 response,
      handleClientMessage lastValueStore
        (worldOf [] [setParameterRequest 5 100, getParameterRequest 5] 4) = .ok w1 ∧
      handleClientMessage lastValueStore w1 = .ok w2 ∧
      response = [cJSON_CreateNumber "value" 100] ∧
      (cJSON_GetObjectItem response "value").map (fun it => it.valuedouble) = some 100 ∧
      w2.calls = [] ++
        [Call.setPreParameter 5 (toUInt32 100),
         Call.xQueueSend [cJSON_CreateNumber "error" ESP_OK],
         Call.getPreParameter 5,
         Call.xQueueSend response] ∧
      w2.Json_incoming_queue.items = [] :=
  setThenGet_roundtrip lastValueStore
    (worldOf [] [setParameterRequest 5 100, getParameterRequest 5] 4)
    (setParameterRequest 5 100) (getParameterRequest 5) []
    (num "type" 2) (num "parameter" 5) (num "value" 100) (num "type" 1) (num "parameter" 5)
    5 100 [(5, 100)] [(5, 100)] rfl (by decide) (by decide) (by decide) (by decide)
    (by decide) (by decide) (by decide) (by decide) (by decide) (by decide)
    (by decide) (by decide) (by decide) (by decide)

/-! ## The shared reading store: properties -/

/-- Closed form of `setTemperature`. -/
theorem setTemperature_eq (i : Nat) (v : Reading) (st : StoreState) :
    setTemperature i v st =
      (true,
        { temperatures :=
            if i = 0 then { st.temperatures with temperatureFirst := v }
            else if i = 1 then { st.temperatures with temperatureSecond := v }
            else if i = 2 then { st.temperatures with temperatureThird := v }
            else st.temperatures
          pwm_mutex := some false }) := by
  unfold setTemperature xSemaphoreTake xSemaphoreGive temperatureMutex
  cases st with
  | mk t m =>
    cases m <;> by_cases h0 : i = 0 <;> by_cases h1 : i = 1 <;> by_cases h2 : i = 2 <;>
      simp [h0, h1, h2]

/-- Closed form of `getTemperatures`: a copy of the store, mutex released. -/
theorem getTemperatures_eq (result : Temperature_info) (st : StoreState) :
    getTemperatures result st = (st.temperatures, { st with pwm_mutex := some false }) := by
  unfold getTemperatures xSemaphoreTake xSemaphoreGive temperatureMutex
  cases st with
  | mk t m => cases m <;> simp

/-- C6 (counterexample). With a device limit of 4, slot index 3 is below the
limit, `setTemperature(3, v)` returns true, and a following `getTemperatures()`
returns the store as it was: no slot 3 holds `v`. -/
theorem setTemperature_index_three :
    (3 : Nat) < 4 ∧
      (setTemperature 3 77 sampleStore).1 = true ∧
      (getTemperatures sampleStore.temperatures (setTemperature 3 77 sampleStore).2).1
        = sampleStore.temperatures ∧
      (getTemperatures sampleStore.temperatures (setTemperature 3 77 sampleStore).2).1.slot 3
        ≠ some 77 := by
  decide

/-- C6 (amended). For every store state, every slot index `i` below both the
device limit `N` and 3 (the store has the three slots of `Temperature_info`)
and every reading `v`: `setTemperature(i, v)` returns true, and a following
`getTemperatures()` returns a store whose slot `i` is `v` and whose every other
slot is as before the write. -/
theorem setTemperature_then_getTemperatures (N : Nat) (st : StoreState) (i : Nat) (v : Reading)
    (result : Temperature_info) (hi : i < min N 3) :
    (setTemperature i v st).1 = true ∧
      (getTemperatures result (setTemperature i v st).2).1.slot i = some v ∧
      ∀ j, j ≠ i →
        (getTemperatures result (setTemperature i v st).2).1.slot j = st.temperatures.slot j := by
  have h3 : i < 3 := lt_of_lt_of_le hi (min_le_right _ _)
  rw [setTemperature_eq, getTemperatures_eq]
  refine ⟨rfl, ?_, ?_⟩
  · interval_cases i <;> simp [Temperature_info.slot]
  · intro j hj
    interval_cases i
    · match j, hj with
      | 1, _ => rfl
      | 2, _ => rfl
      | (_ + 3), _ => rfl
    · match j, hj with
      | 0, _ => rfl
      | 2, _ => rfl
      | (_ + 3), _ => rfl
    · match j, hj with
      | 0, _ => rfl
      | 1, _ => rfl
      | (_ + 3), _ => rfl

/-- Witness for C6 (amended): slot 1 of the sample store, device limit 3. -/
theorem setTemperature_then_getTemperatures_witness :
    1 < min 3 3 ∧
      ((setTemperature 1 77 sampleStore).1 = true ∧
        (getTemperatures sampleStore.temperatures (setTemperature 1 77 sampleStore).2).1.slot 1
          = some 77 ∧
        ∀ j, j ≠ 1 →
          (getTemperatures sampleStore.temperatures (setTemperature 1 77 sampleStore).2).1.slot j
            = sampleStore.temperatures.slot j) :=
  ⟨by decide,
    setTemperature_then_getTemperatures 3 sampleStore 1 77 sampleStore.temperatures (by decide)⟩


/-! ## The sampling task: discovery -/

theorem findDevicesLoop_overflow (bus device_rom_codes : List OneWireBus_ROMCode)
    (num_devices : Nat) (hn : num_devices ≤ device_rom_codes.length)
    (hk : device_rom_codes.length < num_devices + bus.length) :
    findDevicesLoop bus device_rom_codes num_devices
      = .error (Fault.outOfBounds "device_rom_codes" device_rom_codes.length) := by
  induction bus generalizing device_rom_codes num_devices with
  | nil => simp at hk; omega
  | cons rom rest ih =>
    unfold findDevicesLoop
    by_cases hlt : num_devices < device_rom_codes.length
    · rw [if_pos hlt]
      have := ih (device_rom_codes.set num_devices rom) (num_devices + 1)
        (by simpa using hlt) (by simp at hk ⊢; omega)
      simpa using this
    · rw [if_neg hlt]
      have : num_devices = device_rom_codes.length := by omega
      rw [this]

theorem findDevicesLoop_fits (bus device_rom_codes : List OneWireBus_ROMCode)
    (num_devices : Nat) (hk : num_devices + bus.length ≤ device_rom_codes.length) :
    ∃ codes, findDevicesLoop bus device_rom_codes num_devices
        = .ok (codes, num_devices + bus.length) ∧
      codes.length = device_rom_codes.length ∧
      (∀ i, i < bus.length → codes[num_devices + i]? = bus[i]?) ∧
      (∀ i, i < num_devices → codes[i]? = device_rom_codes[i]?) := by
  induction bus generalizing device_rom_codes num_devices with
  | nil => exact ⟨device_rom_codes, by simp [findDevicesLoop]⟩
  | cons rom rest ih =>
    simp only [List.length_cons] at hk
    obtain ⟨codes, hrun, hlen, hnew, hold⟩ :=
      ih (device_rom_codes.set num_devices rom) (num_devices + 1) (by simp; omega)
    refine ⟨codes, ?_, by simpa using hlen, ?_, ?_⟩
    · unfold findDevicesLoop
      rw [if_pos (by omega), hrun]
      simp only [List.length_cons]
      congr 2
      omega
    · intro i hi
      cases i with
      | zero =>
        have := hold num_devices (by omega)
        simp only [List.getElem?_set, if_pos rfl] at this
        simpa [show num_devices < device_rom_codes.length by omega] using this
      | succ j =>
        have := hnew j (by simpa using hi)
        simpa [Nat.add_assoc, Nat.add_comm 1 j] using this
    · intro i hi
      have := hold i (by omega)
      rwa [List.getElem?_set_ne (by omega)] at this

/-- C9 (the code at the failing input). On a bus where the search reports more
devices than the device limit, the discovery loop stores a ROM code at index
`DS18B20_DEVICES_QUANTITY`, outside `device_rom_codes`: it neither stops at
the limit nor ends with `num_devices = min(k, N)`. -/
theorem findDevices_overflow (cfg : Config) (bus : List OneWireBus_ROMCode)
    (hk : cfg.DS18B20_DEVICES_QUANTITY < bus.length) :
    findDevices cfg bus
      = .error (Fault.outOfBounds "device_rom_codes" cfg.DS18B20_DEVICES_QUANTITY) := by
  have := findDevicesLoop_overflow bus (List.replicate cfg.DS18B20_DEVICES_QUANTITY 0) 0
    (Nat.zero_le _) (by simpa using hk)
  simpa [findDevices] using this

/-- Witness for C9: four devices on the bus, a device limit of three. -/
theorem findDevices_overflow_witness :
    (sampleConfig 3).DS18B20_DEVICES_QUANTITY < [11, 22, 33, 44].length ∧
      findDevices (sampleConfig 3) [11, 22, 33, 44]
        = .error (Fault.outOfBounds "device_rom_codes" (sampleConfig 3).DS18B20_DEVICES_QUANTITY) :=
  ⟨by decide, findDevices_overflow (sampleConfig 3) [11, 22, 33, 44] (by decide)⟩

/-- On a bus where the search reports `k` devices with `k` at most the device
limit, discovery ends with `num_devices = k` and the ROM codes at indices
`0..k-1` of `device_rom_codes`. -/
theorem findDevices_fits (cfg : Config) (bus : List OneWireBus_ROMCode)
    (hk : bus.length ≤ cfg.DS18B20_DEVICES_QUANTITY) :
    ∃ codes, findDevices cfg bus = .ok (codes, bus.length) ∧
      codes.length = cfg.DS18B20_DEVICES_QUANTITY ∧
      ∀ i, i < bus.length → codes[i]? = bus[i]? := by
  obtain ⟨codes, hrun, hlen, hnew, -⟩ :=
    findDevicesLoop_fits bus (List.replicate cfg.DS18B20_DEVICES_QUANTITY 0) 0 (by simpa using hk)
  exact ⟨codes, by simpa [findDevices] using hrun, by simpa using hlen,
    fun i hi => by simpa using hnew i hi⟩

/-! ## The sampling task: the periodic delay -/

theorem Config.period_lt (cfg : Config) : cfg.period < TICKS :=
  Nat.mod_lt _ (by decide)

/-- C10 (the code at the failing input). Period 1000 ticks, `start_ticks = 0`,
the comparison reads tick 999 and the delay computation reads tick 1001 (two
ticks pass between the two reads): `vTaskDelay` is called with
`1000 - 1001` in `TickType_t` arithmetic, which is 4294967295 ticks, more than
the period. -/
theorem periodicDelay_underflow :
    (sampleConfig 3).period = 1000 ∧
      xTaskGetTickCount (sampleTask 3 999).now = 999 ∧
      xTaskGetTickCount ((sampleTask 3 999).now + 2) = 1001 ∧
      (periodicDelay (sampleConfig 3) 0 ⟨2, 0, 0⟩ (sampleTask 3 999)).calls
        = [TaskCall.vTaskDelay 4294967295] ∧
      (sampleConfig 3).period < 4294967295 := by
  decide

/-- The delay stays within one period when the second reading of the tick
counter does not lie more than one period after `start_ticks`. -/
theorem periodicDelay_le_period (cfg : Config) (start_ticks : Nat) (pre : Preemption)
    (s : TaskState) (ticks : Nat)
    (hcall : TaskCall.vTaskDelay ticks ∈ (periodicDelay cfg start_ticks pre s).calls)
    (hnew : TaskCall.vTaskDelay ticks ∉ s.calls)
    (h2 : tickSub (xTaskGetTickCount (s.now + pre.betweenReads)) start_ticks ≤ cfg.period) :
    ticks ≤ cfg.period := by
  have hP := cfg.period_lt
  unfold periodicDelay at hcall
  split at hcall
  · simp only [vTaskDelay, List.mem_append, List.mem_singleton, TaskCall.vTaskDelay.injEq] at hcall
    rcases hcall with hcall | hcall
    · exact absurd hcall hnew
    · subst hcall
      unfold tickSub xTaskGetTickCount TICKS at *
      omega
  · exact absurd hcall hnew

/-! ## The sampling task: one cycle -/

theorem forLoop_zero {α : Type} (body : Nat → α → Except Fault α) (init : α) :
    forLoop 0 body init = .ok init := rfl

theorem forLoop_succ {α : Type} (n : Nat) (body : Nat → α → Except Fault α) (init acc : α)
    (h : forLoop n body init = .ok acc) :
    forLoop (n + 1) body init = body n acc := by
  unfold forLoop at h ⊢
  have h' : List.foldlM (fun acc i => body i acc) init (List.range n) = pure acc := h
  rw [List.range_succ, List.foldlM_append, h', pure_bind]
  simp

theorem readTemps_ok (cfg : Config) (read : Option DS18B20_Info → Reading)
    (devices : List (Option DS18B20_Info)) (n : Nat)
    (hdev : devices.length = cfg.DS18B20_DEVICES_QUANTITY)
    (hn : n ≤ cfg.DS18B20_DEVICES_QUANTITY) :
    ∃ temps, readTemps cfg read devices n = .ok temps ∧
      temps.length = cfg.DS18B20_DEVICES_QUANTITY ∧
      ∀ i, i < n → temps[i]? = some (readingOf read devices i) := by
  unfold readTemps
  induction n with
  | zero => exact ⟨_, forLoop_zero _ _, by simp, by simp⟩
  | succ k ih =>
    obtain ⟨temps, hrun, hlen, hval⟩ := ih (by omega)
    have hk : k < devices.length := by omega
    refine ⟨temps.set k (readingOf read devices k), ?_, by simpa using hlen, ?_⟩
    · rw [forLoop_succ _ _ _ _ hrun]
      simp [List.getElem?_eq_getElem hk, readingOf, List.getD_eq_getElem _ _ hk,
        show k < temps.length by omega]
    · intro i hi
      by_cases hik : i = k
      · subst hik
        simp [List.getElem?_set, show i < temps.length by omega]
      · rw [List.getElem?_set_ne (Ne.symm hik)]
        exact hval i (by omega)

/-- The store after `setTemperature`, slot by slot. -/
theorem slot_setTemperature (i : Nat) (v : Reading) (st : StoreState) (j : Nat) :
    (setTemperature i v st).2.temperatures.slot j
      = if j = i ∧ j < 3 then some v else st.temperatures.slot j := by
  rw [setTemperature_eq]
  by_cases h0 : i = 0
  · subst h0
    match j with
    | 0 => rfl
    | 1 => rfl
    | 2 => rfl
    | (_ + 3) => simp [Temperature_info.slot]
  · by_cases h1 : i = 1
    · subst h1
      match j with
      | 0 => rfl
      | 1 => rfl
      | 2 => rfl
      | (_ + 3) => simp [Temperature_info.slot]
    · by_cases h2 : i = 2
      · subst h2
        match j with
        | 0 => rfl
        | 1 => rfl
        | 2 => rfl
        | (_ + 3) => simp [Temperature_info.slot]
      · simp only [h0, h1, h2, if_false]
        have : ¬ (j = i ∧ j < 3) := by omega
        simp [this]

theorem publishTemp_ok (temps : List Reading) (i : Nat) (s : TaskState) (t : Reading)
    (ht : temps[i]? = some t) (hi : i < s.crc_errors.length) :
    publishTemp temps i s = .ok
      { s with
        crc_errors :=
          if t = DS18B20_INVALID_READING then s.crc_errors.set i (s.crc_errors[i] + 1)
          else s.crc_errors
        store := (setTemperature i t s.store).2
        calls := s.calls ++ [TaskCall.setTemperature i t] } := by
  by_cases hinv : t = DS18B20_INVALID_READING
  · simp [publishTemp, ht, hinv, List.getElem?_eq_getElem hi]
  · simp [publishTemp, ht, hinv]

theorem lt_succ_and_iff (i k : Nat) (p : Prop) (hik : i ≠ k) : (i < k + 1 ∧ p) ↔ (i < k ∧ p) := by
  constructor
  · rintro ⟨a, b⟩; exact ⟨by omega, b⟩
  · rintro ⟨a, b⟩; exact ⟨by omega, b⟩

theorem publishTemps_ok (temps : List Reading) (r : Nat → Reading) (n : Nat) (s : TaskState)
    (htemps : ∀ i, i < n → temps[i]? = some (r i))
    (hcrc : n ≤ s.crc_errors.length) (k : Nat) (hk : k ≤ n) :
    ∃ s', forLoop k (publishTemp temps) s = .ok s' ∧
      s'.calls = s.calls ++ (List.range k).map (fun i => TaskCall.setTemperature i (r i)) ∧
      s'.now = s.now ∧
      s'.crc_errors.length = s.crc_errors.length ∧
      (∀ i, s'.crc_errors[i]? = (s.crc_errors[i]?).map
        (fun c => c + (if i < k ∧ r i = DS18B20_INVALID_READING then 1 else 0))) ∧
      (∀ j, s'.store.temperatures.slot j
        = if j < k ∧ j < 3 then some (r j) else s.store.temperatures.slot j) := by
  induction k with
  | zero =>
    refine ⟨s, forLoop_zero _ _, by simp, rfl, rfl, ?_, by simp⟩
    intro i
    cases s.crc_errors[i]? <;> simp
  | succ k ih =>
    obtain ⟨s1, hrun, hcalls, hnow, hlen, hcnt, hslot⟩ := ih (by omega)
    have hkt := htemps k (by omega)
    have hkc : k < s1.crc_errors.length := by omega
    have hks : k < s.crc_errors.length := by omega
    refine ⟨_, (forLoop_succ _ _ _ _ hrun).trans (publishTemp_ok temps k s1 (r k) hkt hkc),
      ?_, hnow, ?_, ?_, ?_⟩
    · simp [hcalls, List.range_succ]
    · show (if r k = DS18B20_INVALID_READING then _ else _ : List Int).length = _
      split <;> simp [hlen]
    · intro i
      show (if r k = DS18B20_INVALID_READING then _ else _ : List Int)[i]? = _
      by_cases hik : i = k
      · subst hik
        have h1 := hcnt i
        rw [List.getElem?_eq_getElem hkc, List.getElem?_eq_getElem hks] at h1
        simp only [Option.map_some', Option.some.injEq, lt_irrefl, false_and, if_false,
          add_zero] at h1
        by_cases hinv : r i = DS18B20_INVALID_READING
        · simp [hinv, List.getElem?_set, hkc, h1, List.getElem?_eq_getElem hks]
        · simp [hinv, h1, List.getElem?_eq_getElem hks, List.getElem?_eq_getElem hkc]
      · have hset : (if r k = DS18B20_INVALID_READING
            then s1.crc_errors.set k (s1.crc_errors[k] + 1) else s1.crc_errors)[i]?
            = s1.crc_errors[i]? := by
          split
          · exact List.getElem?_set_ne (Ne.symm hik)
          · rfl
        rw [hset, hcnt i]
        simp only [lt_succ_and_iff i k _ hik]
    · intro j
      show (setTemperature k (r k) s1.store).2.temperatures.slot j = _
      rw [slot_setTemperature, hslot j]
      by_cases hjk : j = k
      · subst hjk
        by_cases h3 : j < 3 <;> simp [h3]
      · simp only [hjk, false_and, if_false, lt_succ_and_iff j k _ hjk]

/-- C7 (counterexample). With a device limit of 4 and a cycle over 4 devices
whose readings are 11, the sentinel, 33 and 44: `setTemperature` is called for
all four indices in order, yet `getTemperatures()` after the cycle shows no
slot 3 equal to the reading 44 of device 3. -/
theorem samplingCycle_fourth_device :
    0 < 4 ∧ 4 ≤ (sampleConfig 4).DS18B20_DEVICES_QUANTITY ∧
      readingOf sampleRead (sampleDevices [11, 22, 33, 44]) 3 = 44 ∧
      ∃ s', samplingCycle (sampleConfig 4) sampleRead (sampleDevices [11, 22, 33, 44]) 4 750
          (sampleTask 4 0) = .ok s' ∧
        s'.calls = [TaskCall.setTemperature 0 11,
                    TaskCall.setTemperature 1 DS18B20_INVALID_READING,
                    TaskCall.setTemperature 2 33,
                    TaskCall.setTemperature 3 44] ∧
        (getTemperatures sampleStore.temperatures s'.store).1
          = { temperatureFirst := 11, temperatureSecond := DS18B20_INVALID_READING,
              temperatureThird := 33 } ∧
        (getTemperatures sampleStore.temperatures s'.store).1.slot 3 ≠ some 44 :=
  ⟨by decide, by decide, by decide, _, rfl, by decide, by decide, by decide⟩

/-- What a sampling cycle over `n ≤ N` devices leaves behind. -/
theorem samplingCycle_spec (cfg : Config) (read : Option DS18B20_Info → Reading)
    (devices : List (Option DS18B20_Info)) (n busy : Nat) (s : TaskState)
    (hn : n ≤ cfg.DS18B20_DEVICES_QUANTITY)
    (hdev : devices.length = cfg.DS18B20_DEVICES_QUANTITY)
    (hcrc : s.crc_errors.length = cfg.DS18B20_DEVICES_QUANTITY) :
    ∃ s', samplingCycle cfg read devices n busy s = .ok s' ∧
      s'.calls = s.calls ++
        (List.range n).map (fun i => TaskCall.setTemperature i (readingOf read devices i)) ∧
      s'.now = s.now + busy ∧
      (∀ i, s'.crc_errors[i]? = (s.crc_errors[i]?).map (fun c =>
        c + (if i < n ∧ readingOf read devices i = DS18B20_INVALID_READING then 1 else 0))) ∧
      (∀ j, s'.store.temperatures.slot j
        = if j < n ∧ j < 3 then some (readingOf read devices j)
          else s.store.temperatures.slot j) := by
  obtain ⟨temps, hread, -, htemps⟩ := readTemps_ok cfg read devices n hdev hn
  obtain ⟨s1, hrun, hcalls, hnow, -, hcnt, hslot⟩ :=
    publishTemps_ok temps (readingOf read devices) n s htemps (by omega) n (le_refl n)
  refine ⟨{ s1 with now := s1.now + busy }, ?_, hcalls, ?_, hcnt, hslot⟩
  · simp [samplingCycle, hread, hrun]
  · show s1.now + busy = _
    rw [hnow]

/-- C7 (amended). A sampling cycle over `n` discovered devices, `n ≤ N`, in
which the driver returns the readings `r_0 .. r_(n-1)`: the cycle calls
`setTemperature(i, r_i)` for every `i < n` in the order `0 .. n-1`, whatever
the readings are, and nothing else; `getTemperatures()` after the cycle shows
slot `i` equal to `r_i` for each `i < n` that is one of the three slots of the
store (`i < 3`); and the error counter of device `i` is incremented exactly
when `i < n` and `r_i` is the sentinel. -/
theorem samplingCycle_publishes (cfg : Config) (read : Option DS18B20_Info → Reading)
    (devices : List (Option DS18B20_Info)) (n busy : Nat) (s : TaskState)
    (result : Temperature_info)
    (hn : n ≤ cfg.DS18B20_DEVICES_QUANTITY)
    (hdev : devices.length = cfg.DS18B20_DEVICES_QUANTITY)
    (hcrc : s.crc_errors.length = cfg.DS18B20_DEVICES_QUANTITY) :
    ∃ s', samplingCycle cfg read devices n busy s = .ok s' ∧
      s'.calls = s.calls ++
        (List.range n).map (fun i => TaskCall.setTemperature i (readingOf read devices i)) ∧
      (∀ i, i < n → i < 3 →
        (getTemperatures result s'.store).1.slot i = some (readingOf read devices i)) ∧
      (∀ i, s'.crc_errors[i]? = (s.crc_errors[i]?).map (fun c =>
        c + (if i < n ∧ readingOf read devices i = DS18B20_INVALID_READING then 1 else 0))) := by
  obtain ⟨s', hrun, hcalls, -, hcnt, hslot⟩ :=
    samplingCycle_spec cfg read devices n busy s hn hdev hcrc
  refine ⟨s', hrun, hcalls, ?_, hcnt⟩
  intro i hin hi3
  rw [getTemperatures_eq]
  show s'.store.temperatures.slot i = _
  rw [hslot i, if_pos ⟨hin, hi3⟩]

/-- Witness for C7 (amended): the 3-device cycle in which device 1 returns the
sentinel; slot 1 shows the sentinel, slots 0 and 2 the readings 11 and 33, and
only the counter of device 1 is incremented. -/
theorem samplingCycle_publishes_witness :
    (3 ≤ (sampleConfig 3).DS18B20_DEVICES_QUANTITY ∧
      (sampleDevices [11, 22, 33]).length = (sampleConfig 3).DS18B20_DEVICES_QUANTITY ∧
      (sampleTask 3 0).crc_errors.length = (sampleConfig 3).DS18B20_DEVICES_QUANTITY) ∧
    (List.range 3).map (fun i => readingOf sampleRead (sampleDevices [11, 22, 33]) i)
      = [11, DS18B20_INVALID_READING, 33] ∧
    samplingCycle (sampleConfig 3) sampleRead (sampleDevices [11, 22, 33]) 3 750 (sampleTask 3 0)
      = .ok { store := { temperatures := { temperatureFirst := 11,
                                           temperatureSecond := DS18B20_INVALID_READING,
                                           temperatureThird := 33 }
                         pwm_mutex := some false }
              crc_errors := [0, 1, 0]
              now := 750
              calls := [TaskCall.setTemperature 0 11,
                        TaskCall.setTemperature 1 DS18B20_INVALID_READING,
                        TaskCall.setTemperature 2 33] } ∧
    ∃ s', samplingCycle (sampleConfig 3) sampleRead (sampleDevices [11, 22, 33]) 3 750
        (sampleTask 3 0) = .ok s' ∧
      s'.calls = (sampleTask 3 0).calls ++
        (List.range 3).map (fun i =>
          TaskCall.setTemperature i (readingOf sampleRead (sampleDevices [11, 22, 33]) i)) ∧
      (∀ i, i < 3 → i < 3 →
        (getTemperatures sampleStore.temperatures s'.store).1.slot i
          = some (readingOf sampleRead (sampleDevices [11, 22, 33]) i)) ∧
      (∀ i, s'.crc_errors[i]? = ((sampleTask 3 0).crc_errors[i]?).map (fun c =>
        c + (if i < 3 ∧ readingOf sampleRead (sampleDevices [11, 22, 33]) i
          = DS18B20_INVALID_READING then 1 else 0))) :=
  ⟨⟨by decide, by decide, by decide⟩, by decide, rfl,
    samplingCycle_publishes (sampleConfig 3) sampleRead (sampleDevices [11, 22, 33]) 3 750
      (sampleTask 3 0) sampleStore.temperatures (by decide) (by decide) (by decide)⟩

end Moonshiner
